import Mathlib

set_option linter.unusedVariables false

/-!
Verification of the telemetry-normalization core of the aether-wraith-isr-fleet
repository: the plugin registry (`telemetry/plugins/__init__.py`), the two
shipped transforms (`telemetry/plugins/camera.py`,
`telemetry/plugins/default_plugin.py`) and the normalization loop of
`parse_stream` (`telemetry/parse_telemetry.py`).

Modelling conventions:
- JSON scalars and documents are the inductive `JVal`; JSON numbers are
  modelled as integers (no claim involves floating point).
- A Python dict is an association list in insertion order with unique keys;
  `dict.get` is `dictGet`.
- A Python exception escaping a modelled function is `Option.none` (for
  `parse_stream`) or `Except.error` (for `load_plugins`).
- Python string primitives used by `camera.py` (`str.lower`, `str.split`,
  `int(...)`) are modelled character-exactly for ASCII input, on `List Char`.
-/

/-- A JSON value as produced by `json.load`.  Numbers are modelled as
integers; `null` doubles as Python `None` (which is what `dict.get`
returns for a missing key). -/
inductive JVal where
  | null
  | bool (b : Bool)
  | int (n : Int)
  | str (s : String)
  | arr (xs : List JVal)
  | obj (fields : List (String × JVal))

/-- `isinstance(value, str)` on a `JVal`. -/
def JVal.isStr : JVal → Bool
  | JVal.str _ => true
  | _ => false

/-- The string payload of a `JVal.str` (default `""` elsewhere; only ever
applied under an `isStr` guard, mirroring the `isinstance` check). -/
def JVal.strD : JVal → String
  | JVal.str s => s
  | _ => ""

/-- Python hashability of a `JVal`: lists and dicts are unhashable, so using
one as a `dict.get` key raises `TypeError`; all scalars are hashable. -/
def JVal.hashable : JVal → Bool
  | JVal.arr _ => false
  | JVal.obj _ => false
  | _ => true

/-- One flattened row of the event log, the five CSV data columns of
`parse_telemetry.py` (the constant header row is not modelled). -/
structure OutputRow where
  timestamp : JVal
  node_id : JVal
  sensor : JVal
  key : String
  value : JVal

/-- `d.get(k)` on a Python dict modelled as an association list with unique
keys: the value at the first matching key, if any. -/
def dictGet {α : Type} (d : List (String × α)) (k : String) : Option α :=
  (d.find? (fun kv => kv.1 == k)).map (fun kv => kv.2)

/-! ### Python string primitives used by `camera.py`, on `List Char` (ASCII) -/

/-- ASCII decimal digit test, the digits accepted by Python `int` (the model
is restricted to ASCII input). -/
def isAsciiDigit (c : Char) : Bool :=
  decide (48 ≤ c.toNat ∧ c.toNat ≤ 57)

/-- `str.lower` on one character (ASCII range, the only case exercised). -/
def pyLowerChar (c : Char) : Char :=
  if 65 ≤ c.toNat ∧ c.toNat ≤ 90 then Char.ofNat (c.toNat + 32) else c

/-- `str.lower` on a string's characters. -/
def pyLower (cs : List Char) : List Char :=
  cs.map pyLowerChar

/-- Python `str.split(sep)` for a one-character separator: splits at every
occurrence, keeping empty parts, and yields `[cs]` when `sep` is absent
(`"".split(sep) == [""]`). -/
def pySplit (sep : Char) : List Char → List (List Char)
  | [] => [[]]
  | c :: cs =>
    if c = sep then
      [] :: pySplit sep cs
    else
      match pySplit sep cs with
      | g :: gs => (c :: g) :: gs
      | [] => [[c]]

/-- The whitespace stripped by Python `int(...)` (ASCII whitespace). -/
def isPySpace (c : Char) : Bool :=
  decide (c.toNat = 32 ∨ (9 ≤ c.toNat ∧ c.toNat ≤ 13))

/-- Leading/trailing whitespace stripping performed by Python `int(...)`. -/
def pyStrip (cs : List Char) : List Char :=
  ((cs.dropWhile isPySpace).reverse.dropWhile isPySpace).reverse

/-- Numeric value of an ASCII digit character. -/
def digitVal (c : Char) : Nat :=
  c.toNat - 48

/-- Digit-run accumulator of Python `int(...)` after the first digit: a
single underscore is permitted between two digits, nothing else. -/
def pyDigits : List Char → Nat → Option Nat
  | [], acc => some acc
  | c :: cs, acc =>
    if c = '_' then
      match cs with
      | c2 :: cs2 =>
        if isAsciiDigit c2 then pyDigits cs2 (acc * 10 + digitVal c2) else none
      | [] => none
    else if isAsciiDigit c then
      pyDigits cs (acc * 10 + digitVal c)
    else
      none

/-- The digit run of Python `int(...)` must begin with a digit (never an
underscore). -/
def pyDigitsStart : List Char → Option Nat
  | [] => none
  | c :: cs => if isAsciiDigit c then pyDigits cs (digitVal c) else none

/-- Python `int(...)` after whitespace stripping: an optional single sign
followed by a digit run. -/
def pyIntCore : List Char → Option Int
  | [] => none
  | c :: cs =>
    if c = '+' then
      (pyDigitsStart cs).map Int.ofNat
    else if c = '-' then
      (pyDigitsStart cs).map (fun n => -(n : Int))
    else
      (pyDigitsStart (c :: cs)).map Int.ofNat

/-- Python `int(x)` for a string `x` (ASCII model): `none` models the
`ValueError` raised on unparsable input. -/
def pyInt (cs : List Char) : Option Int :=
  pyIntCore (pyStrip cs)

/-- The tuple unpacking `width, height = (int(x) for x in parts)` in
`camera.py`: succeeds only on exactly two parts whose `int(...)` both
succeed, and then yields the product; any other shape raises (`none`). -/
def resolutionOfParts : List (List Char) → Option Int
  | [w, h] =>
    (match pyInt w, pyInt h with
     | some wi, some hi => some (wi * hi)
     | _, _ => none)
  | _ => none

/-- The `try` body of `camera.py`: `value.lower().split('x')`, then parse
both parts as integers and multiply; `none` models the caught exception. -/
def parseResolution (s : String) : Option Int :=
  resolutionOfParts (pySplit 'x' (pyLower s.data))

/-- One iteration of the loop body of `camera.py`'s `parse`: a `resolution`
entry holding a string is standardised to a pixel count when the string
parses, kept verbatim when it does not (the `except` branch), and every
other entry is yielded unchanged. -/
def cameraEntry (kv : String × JVal) : List (String × JVal) :=
  if kv.1 = "resolution" ∧ kv.2.isStr = true then
    match parseResolution kv.2.strD with
    | some px => [("resolution_px", JVal.int px)]
    | none => [("resolution", kv.2)]
  else
    [kv]

namespace Camera

/-- `parse` of `telemetry/plugins/camera.py`: per-entry standardisation of
the data dict, concatenated in dict order. -/
def parse (sensor : JVal) (data : List (String × JVal)) : List (String × JVal) :=
  data.flatMap cameraEntry

end Camera

namespace DefaultPlugin

/-- `parse` of `telemetry/plugins/default_plugin.py`: `data.items()`
unchanged. -/
def parse (sensor : JVal) (data : List (String × JVal)) : List (String × JVal) :=
  data

end DefaultPlugin

/-- The Transform signature: `(sensor, data) → sequence of (key, value)`.
The sensor argument is whatever `event.get('sensor')` produced. -/
abbrev Transform := JVal → List (String × JVal) → List (String × JVal)

/-- A discovered registry: module name → `parse` function, in discovery
order. -/
abbrev Registry := List (String × Transform)

/-! ### The normalization loop of `parse_stream` (`telemetry/parse_telemetry.py`) -/

/-- `plugins.get(sensor, default_parse)` of `parse_stream`: exact-string
lookup of the sensor value among the (string) registry keys, with the
directly imported `default_plugin.parse` as fallback for any miss and for
every non-string (but hashable) sensor value. -/
def pluginsGet (plugins : Registry) (sensor : JVal) : Transform :=
  match sensor with
  | JVal.str s =>
    (match dictGet plugins s with
     | some t => t
     | none => DefaultPlugin.parse)
  | _ => DefaultPlugin.parse

/-- The rows written for one event by the inner loop of `parse_stream`,
given the selected transform `t` and the event's data dict `d`:
`event.get('timestamp')`, `event.get('node_id')` and `event.get('sensor')`
(each `None`, i.e. `JVal.null`, when absent) are copied onto every
`(key, value)` pair yielded by `t sensor d`. -/
def eventRows (t : Transform) (e : List (String × JVal)) (d : List (String × JVal)) :
    List OutputRow :=
  (t ((dictGet e "sensor").getD JVal.null) d).map fun kv =>
    OutputRow.mk ((dictGet e "timestamp").getD JVal.null)
      ((dictGet e "node_id").getD JVal.null)
      ((dictGet e "sensor").getD JVal.null) kv.1 kv.2

/-- One event of `parse_stream`'s loop with the transform already selected:
`data = event.get('data', {})` must be a dict (or absent, giving `{}`);
a present non-dict value makes the transform's iteration over
`data.items()` raise, modelled by `none`. -/
def parseEventWith (t : Transform) (e : List (String × JVal)) : Option (List OutputRow) :=
  match dictGet e "data" with
  | some (JVal.obj d) => some (eventRows t e d)
  | none => some (eventRows t e [])
  | some _ => none

/-- One event of `parse_stream`'s loop: select the transform by
`plugins.get(event.get('sensor'), default_parse)` — which raises
(`none`) on an unhashable sensor value — then expand the event. -/
def parseEvent (plugins : Registry) (e : List (String × JVal)) : Option (List OutputRow) :=
  if ((dictGet e "sensor").getD JVal.null).hashable = true then
    parseEventWith (pluginsGet plugins ((dictGet e "sensor").getD JVal.null)) e
  else
    none

/-- One element of the event array: `event.get(...)` requires a dict,
anything else raises. -/
def parseEventVal (plugins : Registry) : JVal → Option (List OutputRow)
  | JVal.obj e => parseEvent plugins e
  | _ => none

/-- The event loop of `parse_stream`: the rows written after the header, in
event order, each event's rows in the order its transform yields them.
File I/O, CSV encoding and the header row are outside the model; `events`
is the decoded JSON array and `plugins` the `load_plugins()` result. -/
def parse_stream (plugins : Registry) (events : List JVal) : Option (List OutputRow) :=
  (events.mapM (parseEventVal plugins)).map List.flatten

/-! ### Plugin discovery (`telemetry/plugins/__init__.py`) -/

/-- What importing one plugin module does: the import itself may raise
(malformed module), or the module loads and either has a `parse` attribute
or not.  `load_plugins` takes the directory listing paired with these
outcomes as its environment. -/
inductive ModuleLoad where
  | failure
  | loaded (parseAttr : Option Transform)

/-- `ModuleLoad.failure` as a Boolean test. -/
def ModuleLoad.isFailure : ModuleLoad → Bool
  | ModuleLoad.failure => true
  | _ => false

/-- `filename.startswith('_')`. -/
def startsWithUnderscore (f : String) : Bool :=
  match f.data with
  | '_' :: _ => true
  | _ => false

/-- `filename.endswith('.py')`. -/
def endsWithPy (f : String) : Bool :=
  match f.data.reverse with
  | 'y' :: 'p' :: '.' :: _ => true
  | _ => false

/-- The `continue` condition of `load_plugins`'s loop. -/
def skippedFile (f : String) : Bool :=
  startsWithUnderscore f || !endsWithPy f

/-- `filename[:-3]`: the module (and registry) name of a plugin file. -/
def moduleName (f : String) : String :=
  String.mk (f.data.take (f.data.length - 3))

/-- `load_plugins` of `telemetry/plugins/__init__.py` over a directory
listing: skip underscore-prefixed and non-`.py` entries, import each
remaining module — an import failure propagates (there is no `try` around
`import_module`), discarding everything — and register `parse` under the
module name when the attribute exists (`hasattr` check), silently skipping
the module otherwise. -/
def load_plugins : List (String × ModuleLoad) → Except Unit Registry
  | [] => Except.ok []
  | (filename, m) :: rest =>
    if skippedFile filename then
      load_plugins rest
    else
      match m with
      | ModuleLoad.failure => Except.error ()
      | ModuleLoad.loaded none => load_plugins rest
      | ModuleLoad.loaded (some t) =>
        (match load_plugins rest with
         | Except.ok ps => Except.ok ((moduleName filename, t) :: ps)
         | Except.error e => Except.error e)

/-- The listing of the actual plugin directory `telemetry/plugins/` of the
repository, with what importing each module does: `__init__.py` defines no
`parse`, `camera.py` and `default_plugin.py` each load and define `parse`.
(The listing order `os.listdir` returns is unspecified; sorted order is
used here.) -/
def telemetryPluginsDir : List (String × ModuleLoad) :=
  [("__init__.py", ModuleLoad.loaded none),
   ("camera.py", ModuleLoad.loaded (some Camera.parse)),
   ("default_plugin.py", ModuleLoad.loaded (some DefaultPlugin.parse))]

/-- The registry `load_plugins()` actually produces for the repository's
plugin directory. -/
def realRegistry : Registry :=
  [("camera", Camera.parse), ("default_plugin", DefaultPlugin.parse)]

/-! ### Helper lemmas about the character-level primitives -/

/-- An ASCII digit is outside the uppercase range, so `str.lower` keeps it. -/
theorem pyLowerChar_digit {c : Char} (h : isAsciiDigit c = true) :
    pyLowerChar c = c := by
  unfold pyLowerChar
  rw [if_neg]
  unfold isAsciiDigit at h
  rw [decide_eq_true_eq] at h
  intro hc
  omega

/-- A list of ASCII digits is unchanged by `str.lower`. -/
theorem pyLower_digits {cs : List Char} (h : ∀ c ∈ cs, isAsciiDigit c = true) :
    pyLower cs = cs := by
  unfold pyLower
  induction cs with
  | nil => rfl
  | cons a l ih =>
    rw [List.map_cons, pyLowerChar_digit (h a (List.mem_cons_self a l)),
      ih (fun c hc => h c (List.mem_cons_of_mem a hc))]

/-- Two characters with distinct digit-test results differ. -/
theorem ne_of_digit_of_not {c d : Char} (hc : isAsciiDigit c = true)
    (hd : isAsciiDigit d = false) : c ≠ d := by
  intro h
  rw [h, hd] at hc
  exact Bool.false_ne_true hc

/-- `str.split(sep)` on a separator-free string returns that one part. -/
theorem pySplit_no_sep (sep : Char) (cs : List Char) (h : ∀ c ∈ cs, c ≠ sep) :
    pySplit sep cs = [cs] := by
  induction cs with
  | nil => rfl
  | cons a l ih =>
    unfold pySplit
    rw [if_neg (h a (List.mem_cons_self a l)),
      ih (fun c hc => h c (List.mem_cons_of_mem a hc))]

/-- `str.split(sep)` on a string with exactly one separator occurrence
returns the two surrounding parts. -/
theorem pySplit_sep_mid (sep : Char) (w h : List Char)
    (hw : ∀ c ∈ w, c ≠ sep) (hh : ∀ c ∈ h, c ≠ sep) :
    pySplit sep (w ++ sep :: h) = [w, h] := by
  induction w with
  | nil =>
    show pySplit sep (sep :: h) = [[], h]
    unfold pySplit
    rw [if_pos rfl, pySplit_no_sep sep h hh]
  | cons a l ih =>
    show pySplit sep (a :: (l ++ sep :: h)) = [a :: l, h]
    unfold pySplit
    rw [if_neg (hw a (List.mem_cons_self a l)),
      ih (fun c hc => hw c (List.mem_cons_of_mem a hc))]

/-- A digit is not whitespace. -/
theorem not_space_of_digit {c : Char} (h : isAsciiDigit c = true) :
    isPySpace c = false := by
  unfold isAsciiDigit at h
  unfold isPySpace
  rw [decide_eq_true_eq] at h
  rw [decide_eq_false_iff_not]
  omega

/-- `dropWhile` of a whitespace test removes nothing from an all-digit
list. -/
theorem dropWhile_space_digits {cs : List Char}
    (h : ∀ c ∈ cs, isAsciiDigit c = true) :
    cs.dropWhile isPySpace = cs := by
  cases cs with
  | nil => rfl
  | cons a l =>
    rw [List.dropWhile_cons_of_neg]
    rw [not_space_of_digit (h a (List.mem_cons_self a l))]
    exact Bool.false_ne_true

/-- Python `int`'s whitespace stripping leaves an all-digit string alone. -/
theorem pyStrip_digits {cs : List Char} (h : ∀ c ∈ cs, isAsciiDigit c = true) :
    pyStrip cs = cs := by
  unfold pyStrip
  rw [dropWhile_space_digits h]
  rw [dropWhile_space_digits (fun c hc => h c (List.mem_reverse.mp hc))]
  exact List.reverse_reverse cs

/-- Decimal value of a digit string, most significant first. -/
def natOfDigits (cs : List Char) : Nat :=
  cs.foldl (fun a c => a * 10 + digitVal c) 0

/-- The digit-run accumulator succeeds on an all-digit list and folds up
its decimal value. -/
theorem pyDigits_digits {cs : List Char} (acc : Nat)
    (h : ∀ c ∈ cs, isAsciiDigit c = true) :
    pyDigits cs acc = some (cs.foldl (fun a c => a * 10 + digitVal c) acc) := by
  induction cs generalizing acc with
  | nil => rfl
  | cons a l ih =>
    have ha := h a (List.mem_cons_self a l)
    unfold pyDigits
    rw [if_neg (ne_of_digit_of_not ha (by decide))]
    rw [if_pos ha, ih _ (fun c hc => h c (List.mem_cons_of_mem a hc))]
    rfl

/-- Python `int(...)` on a nonempty all-digit string returns its decimal
value. -/
theorem pyInt_digits {cs : List Char} (h1 : cs ≠ [])
    (h2 : ∀ c ∈ cs, isAsciiDigit c = true) :
    pyInt cs = some (Int.ofNat (natOfDigits cs)) := by
  unfold pyInt
  rw [pyStrip_digits h2]
  cases cs with
  | nil => exact absurd rfl h1
  | cons a l =>
    have ha := h2 a (List.mem_cons_self a l)
    show (if a = '+' then (pyDigitsStart l).map Int.ofNat
      else if a = '-' then (pyDigitsStart l).map (fun n => -(n : Int))
      else (pyDigitsStart (a :: l)).map Int.ofNat) = some (Int.ofNat (natOfDigits (a :: l)))
    rw [if_neg (ne_of_digit_of_not ha (by decide))]
    rw [if_neg (ne_of_digit_of_not ha (by decide))]
    show Option.map Int.ofNat
        (if isAsciiDigit a = true then pyDigits l (digitVal a) else none) =
      some (Int.ofNat (natOfDigits (a :: l)))
    rw [if_pos ha, pyDigits_digits _ (fun c hc => h2 c (List.mem_cons_of_mem a hc))]
    unfold natOfDigits
    rw [List.foldl_cons]
    simp [digitVal]

/-- On a `<digits><x-or-X><digits>` string, the `try` body of `camera.py`
succeeds and returns the product of the two decimal values. -/
theorem parseResolution_digits (w h : List Char) (c : Char) (v : String)
    (hw1 : w ≠ []) (hw2 : ∀ ch ∈ w, isAsciiDigit ch = true)
    (hh1 : h ≠ []) (hh2 : ∀ ch ∈ h, isAsciiDigit ch = true)
    (hc : c = 'x' ∨ c = 'X')
    (hv : v.data = w ++ c :: h) :
    parseResolution v = some (Int.ofNat (natOfDigits w) * Int.ofNat (natOfDigits h)) := by
  unfold parseResolution
  rw [hv]
  have hlc : pyLowerChar c = 'x' := by rcases hc with rfl | rfl <;> decide
  have hl : pyLower (w ++ c :: h) = w ++ 'x' :: h := by
    unfold pyLower
    rw [List.map_append, List.map_cons, hlc]
    rw [show w.map pyLowerChar = w from pyLower_digits hw2]
    rw [show h.map pyLowerChar = h from pyLower_digits hh2]
  rw [hl]
  have hwx : ∀ ch ∈ w, ch ≠ 'x' := fun ch hm => ne_of_digit_of_not (hw2 ch hm) (by decide)
  have hhx : ∀ ch ∈ h, ch ≠ 'x' := fun ch hm => ne_of_digit_of_not (hh2 ch hm) (by decide)
  rw [pySplit_sep_mid 'x' w h hwx hhx]
  show (match pyInt w, pyInt h with
        | some wi, some hi => some (wi * hi)
        | _, _ => none) = some (Int.ofNat (natOfDigits w) * Int.ofNat (natOfDigits h))
  rw [pyInt_digits hw1 hw2, pyInt_digits hh1 hh2]

/-- `camera.py` on a `resolution` entry holding a string reduces to a case
split on the `try` body's outcome. -/
theorem cameraEntry_resolution (s : String) :
    cameraEntry ("resolution", JVal.str s) =
      (match parseResolution s with
       | some px => [("resolution_px", JVal.int px)]
       | none => [("resolution", JVal.str s)]) := by
  unfold cameraEntry
  rw [if_pos ⟨rfl, rfl⟩]
  rfl

/-- Claim C4: for every entry of a camera event's data whose key is
`resolution` and whose value is a string of the form
`<width>x<height>` (`x` case-insensitive, both parts decimal digit runs),
the camera transform emits exactly one pair
`("resolution_px", width * height)` for that entry; in particular
`data = {"resolution": "1920x1080"}` produces exactly one row
`("resolution_px", 2073600)`. -/
theorem claim_C4 (w h : List Char) (c : Char) (v : String)
    (hw1 : w ≠ []) (hw2 : ∀ ch ∈ w, isAsciiDigit ch = true)
    (hh1 : h ≠ []) (hh2 : ∀ ch ∈ h, isAsciiDigit ch = true)
    (hc : c = 'x' ∨ c = 'X')
    (hv : v.data = w ++ c :: h) :
    cameraEntry ("resolution", JVal.str v) =
      [("resolution_px", JVal.int (Int.ofNat (natOfDigits w) * Int.ofNat (natOfDigits h)))] ∧
    Camera.parse (JVal.str "camera") [("resolution", JVal.str "1920x1080")] =
      [("resolution_px", JVal.int 2073600)] := by
  constructor
  · rw [cameraEntry_resolution, parseResolution_digits w h c v hw1 hw2 hh1 hh2 hc hv]
  · rfl

/-- Witness for C4 at the spec's own instance `"1920x1080"`. -/
theorem claim_C4_witness :
    "1920x1080".data = ['1', '9', '2', '0'] ++ 'x' :: ['1', '0', '8', '0'] ∧
    cameraEntry ("resolution", JVal.str "1920x1080") =
      [("resolution_px", JVal.int 2073600)] := by
  refine ⟨rfl, ?_⟩
  have h4 := claim_C4 ['1', '9', '2', '0'] ['1', '0', '8', '0'] 'x' "1920x1080"
    (by decide) (by decide) (by decide) (by decide) (Or.inl rfl) rfl
  rw [h4.1]
  rfl

/-- Claim C5: the camera transform is total — the `try/except` in
`camera.py` resolves every unparsable `resolution` string to the original
pair `("resolution", value)` unchanged, exactly one pair for that entry —
and in particular `{"resolution": "not-a-resolution"}` yields exactly
`("resolution", "not-a-resolution")` with no exception escaping (totality
is the shape of the model: `cameraEntry` is a total function into a list,
with `none` of `parseResolution` covering every caught exception). -/
theorem claim_C5 (s : String) (h : parseResolution s = none) :
    cameraEntry ("resolution", JVal.str s) = [("resolution", JVal.str s)] ∧
    Camera.parse (JVal.str "camera") [("resolution", JVal.str "not-a-resolution")] =
      [("resolution", JVal.str "not-a-resolution")] := by
  constructor
  · rw [cameraEntry_resolution, h]
  · rfl

/-- Witness for C5 at the spec's own instance `"not-a-resolution"`. -/
theorem claim_C5_witness :
    parseResolution "not-a-resolution" = none ∧
    cameraEntry ("resolution", JVal.str "not-a-resolution") =
      [("resolution", JVal.str "not-a-resolution")] :=
  ⟨rfl, (claim_C5 "not-a-resolution" rfl).1⟩

/-- Every loop iteration of `camera.py` yields exactly one pair. -/
theorem cameraEntry_length (kv : String × JVal) : (cameraEntry kv).length = 1 := by
  unfold cameraEntry
  split
  · split <;> rfl
  · rfl

/-- Claim C10: the camera transform emits exactly one pair per entry of its
data dict (it never drops, adds, or splits fields), so its output length
equals the dict's size; and every entry whose key is not `resolution`, as
well as every `resolution` entry whose value is not a string, passes
through unchanged. -/
theorem claim_C10 (sensor : JVal) (data : List (String × JVal)) :
    (Camera.parse sensor data).length = data.length ∧
    ∀ kv ∈ data, (kv.1 ≠ "resolution" ∨ kv.2.isStr = false) → cameraEntry kv = [kv] := by
  constructor
  · unfold Camera.parse
    induction data with
    | nil => rfl
    | cons a l ih =>
      rw [List.flatMap_cons, List.length_append, cameraEntry_length, ih, List.length_cons]
      omega
  · intro kv hm hkv
    unfold cameraEntry
    rw [if_neg]
    rintro ⟨h1, h2⟩
    rcases hkv with hk | hk
    · exact hk h1
    · rw [hk] at h2
      exact Bool.false_ne_true h2

/-- Witness for C10 on a one-entry camera data dict. -/
theorem claim_C10_witness :
    (Camera.parse (JVal.str "camera") [("battery", JVal.int 87)]).length = 1 ∧
    cameraEntry ("battery", JVal.int 87) = [("battery", JVal.int 87)] :=
  ⟨(claim_C10 (JVal.str "camera") [("battery", JVal.int 87)]).1,
   (claim_C10 (JVal.str "camera") [("battery", JVal.int 87)]).2
     ("battery", JVal.int 87) (List.mem_cons_self _ _) (Or.inl (by decide))⟩

/-! ### Helper lemmas about dispatch -/

/-- Sensor dispatch either falls back to the default transform or returns a
transform stored in the registry. -/
theorem pluginsGet_default_or_mem (plugins : Registry) (sv : JVal) :
    pluginsGet plugins sv = DefaultPlugin.parse ∨
      ∃ p ∈ plugins, pluginsGet plugins sv = p.2 := by
  cases sv with
  | str s =>
    cases hf : dictGet plugins s with
    | none =>
      left
      show (match dictGet plugins s with
            | some t => t
            | none => DefaultPlugin.parse) = DefaultPlugin.parse
      rw [hf]
    | some t =>
      right
      have hp : pluginsGet plugins (JVal.str s) = t := by
        show (match dictGet plugins s with
              | some t => t
              | none => DefaultPlugin.parse) = t
        rw [hf]
      unfold dictGet at hf
      cases hfind : plugins.find? (fun kv => kv.1 == s) with
      | none => rw [hfind] at hf; cases hf
      | some p =>
        rw [hfind] at hf
        refine ⟨p, List.mem_of_find?_eq_some hfind, ?_⟩
        injection hf with hf
        rw [hp]
        exact hf.symm
  | null => left; rfl
  | bool b => left; rfl
  | int n => left; rfl
  | arr xs => left; rfl
  | obj fields => left; rfl

/-- Both transforms the repository's registry can dispatch to — and the
default fallback — yield no rows on an empty data dict. -/
theorem pluginsGet_realRegistry_empty (sv sv2 : JVal) :
    pluginsGet realRegistry sv sv2 [] = [] := by
  rcases pluginsGet_default_or_mem realRegistry sv with h | ⟨p, hp, h⟩
  · rw [h]
    rfl
  · rw [h]
    rcases List.mem_cons.mp hp with h1 | h1
    · rw [h1]
      rfl
    · rcases List.mem_cons.mp h1 with h2 | h2
      · rw [h2]
        rfl
      · cases h2

/-- Every row a single event produces carries the event's
`timestamp`/`node_id`/`sensor` values, with `null` for a missing key. -/
theorem parseEvent_fields (plugins : Registry) (e : List (String × JVal))
    (rows : List OutputRow) (r : OutputRow)
    (hr : parseEvent plugins e = some rows) (hm : r ∈ rows) :
    r.timestamp = (dictGet e "timestamp").getD JVal.null ∧
    r.node_id = (dictGet e "node_id").getD JVal.null ∧
    r.sensor = (dictGet e "sensor").getD JVal.null := by
  unfold parseEvent at hr
  split at hr
  · unfold parseEventWith at hr
    split at hr
    · injection hr with hr
      subst hr
      unfold eventRows at hm
      rw [List.mem_map] at hm
      obtain ⟨kv, hkv, rfl⟩ := hm
      exact ⟨rfl, rfl, rfl⟩
    · injection hr with hr
      subst hr
      unfold eventRows at hm
      rw [List.mem_map] at hm
      obtain ⟨kv, hkv, rfl⟩ := hm
      exact ⟨rfl, rfl, rfl⟩
    · cases hr
  · cases hr

/-! ### Claims about the pipeline -/

/-- Claim C1: an event whose sensor name is not a key of the discovered
registry gets exactly the default transform (the lookup
`plugins.get(sensor, default_parse)` is an exact string match with no
case or whitespace normalization, so any string absent from the keys —
including one differing from a registered name only in case — selects the
default transform's output for that event). -/
theorem claim_C1 (plugins : Registry) (e : List (String × JVal)) (s : String)
    (hsen : dictGet e "sensor" = some (JVal.str s))
    (hmiss : dictGet plugins s = none) :
    pluginsGet plugins (JVal.str s) = DefaultPlugin.parse ∧
    parseEvent plugins e = parseEventWith DefaultPlugin.parse e := by
  have hp : pluginsGet plugins (JVal.str s) = DefaultPlugin.parse := by
    show (match dictGet plugins s with
          | some t => t
          | none => DefaultPlugin.parse) = DefaultPlugin.parse
    rw [hmiss]
  refine ⟨hp, ?_⟩
  unfold parseEvent
  rw [hsen]
  rw [if_pos (by rfl)]
  show parseEventWith (pluginsGet plugins (JVal.str s)) e = parseEventWith DefaultPlugin.parse e
  rw [hp]

/-- Witness for C1: the repository registry has key `"camera"` but not
`"Camera"`, so a `"Camera"` sensor is dispatched to the default
transform. -/
theorem claim_C1_witness :
    dictGet [("sensor", JVal.str "Camera"),
        ("data", JVal.obj [("a", JVal.int 1)])] "sensor" = some (JVal.str "Camera") ∧
    dictGet realRegistry "Camera" = none ∧
    parseEvent realRegistry [("sensor", JVal.str "Camera"), ("data", JVal.obj [("a", JVal.int 1)])] =
      parseEventWith DefaultPlugin.parse
        [("sensor", JVal.str "Camera"), ("data", JVal.obj [("a", JVal.int 1)])] :=
  ⟨rfl, rfl,
   (claim_C1 realRegistry
     [("sensor", JVal.str "Camera"), ("data", JVal.obj [("a", JVal.int 1)])] "Camera" rfl rfl).2⟩

/-- Claim C6: the pipeline is an order-preserving flatMap — when event `i`'s
selected transform yields the row list `rowss i`, the output is exactly the
concatenation of those lists in input order (so it has `sum of lengths`
rows, rows of event `i` precede rows of event `i+1`, and rows within one
event keep the transform's order). -/
theorem claim_C6 (plugins : Registry) (events : List JVal) (rowss : List (List OutputRow))
    (h : List.Forall₂ (fun ev rs => parseEventVal plugins ev = some rs) events rowss) :
    parse_stream plugins events = some rowss.flatten ∧
    rowss.flatten.length = (rowss.map List.length).sum := by
  constructor
  · have hmap : events.mapM (parseEventVal plugins) = some rowss := by
      induction h with
      | nil => rfl
      | cons h1 hrest ih =>
        rw [List.mapM_cons, h1, ih]
        rfl
    unfold parse_stream
    rw [hmap]
    rfl
  · rw [List.length_flatten]

/-- Sample events for exercising the pipeline claims. -/
def evCamera : JVal :=
  JVal.obj [("timestamp", JVal.str "t1"), ("sensor", JVal.str "camera"),
    ("data", JVal.obj [("battery", JVal.int 87)])]

/-- A second sample event with an unregistered sensor and two data keys. -/
def evGps : JVal :=
  JVal.obj [("sensor", JVal.str "gps"),
    ("data", JVal.obj [("lat", JVal.int 5), ("lon", JVal.int 6)])]

/-- The rows `evCamera` produces. -/
def rowsCamera : List OutputRow :=
  [OutputRow.mk (JVal.str "t1") JVal.null (JVal.str "camera") "battery" (JVal.int 87)]

/-- The rows `evGps` produces. -/
def rowsGps : List OutputRow :=
  [OutputRow.mk JVal.null JVal.null (JVal.str "gps") "lat" (JVal.int 5),
   OutputRow.mk JVal.null JVal.null (JVal.str "gps") "lon" (JVal.int 6)]

/-- Witness for C6 on a two-event stream over the repository registry. -/
theorem claim_C6_witness :
    List.Forall₂ (fun ev rs => parseEventVal realRegistry ev = some rs)
      [evCamera, evGps] [rowsCamera, rowsGps] ∧
    (parse_stream realRegistry [evCamera, evGps] =
        some ([rowsCamera, rowsGps] : List (List OutputRow)).flatten ∧
      ([rowsCamera, rowsGps] : List (List OutputRow)).flatten.length =
        (([rowsCamera, rowsGps] : List (List OutputRow)).map List.length).sum) :=
  ⟨List.Forall₂.cons rfl (List.Forall₂.cons rfl List.Forall₂.nil),
   claim_C6 realRegistry [evCamera, evGps] [rowsCamera, rowsGps]
     (List.Forall₂.cons rfl (List.Forall₂.cons rfl List.Forall₂.nil))⟩

/-- Claim C7: an event whose `data` dict is empty contributes zero output
rows (and no error), whatever its sensor value — every transform the
repository registry can select, and the default fallback, yields nothing
on an empty dict. -/
theorem claim_C7 (e : List (String × JVal))
    (hs : ((dictGet e "sensor").getD JVal.null).hashable = true)
    (hd : dictGet e "data" = some (JVal.obj [])) :
    parseEvent realRegistry e = some [] := by
  unfold parseEvent
  rw [if_pos hs]
  unfold parseEventWith
  rw [hd]
  show some (eventRows
      (pluginsGet realRegistry ((dictGet e "sensor").getD JVal.null)) e []) = some []
  unfold eventRows
  rw [pluginsGet_realRegistry_empty]
  rfl

/-- Witness for C7 on a camera event with empty data. -/
theorem claim_C7_witness :
    ((dictGet [("sensor", JVal.str "camera"), ("data", JVal.obj [])] "sensor").getD
        JVal.null).hashable = true ∧
    parseEvent realRegistry [("sensor", JVal.str "camera"), ("data", JVal.obj [])] =
      some [] :=
  ⟨rfl, claim_C7 [("sensor", JVal.str "camera"), ("data", JVal.obj [])] rfl rfl⟩

/-- Claim C8: the default fallback transform returns the data dict's
entries unchanged, keys and values intact and in dict (insertion) order;
through the pipeline, an unknown sensor with `data = {"a": 1, "b": "two"}`
produces exactly the rows `("a", 1)` then `("b", "two")`. -/
theorem claim_C8 :
    (∀ (sv : JVal) (d : List (String × JVal)), DefaultPlugin.parse sv d = d) ∧
    parse_stream realRegistry
        [JVal.obj [("sensor", JVal.str "unknown_sensor_x"),
          ("data", JVal.obj [("a", JVal.int 1), ("b", JVal.str "two")])]] =
      some [OutputRow.mk JVal.null JVal.null (JVal.str "unknown_sensor_x") "a" (JVal.int 1),
        OutputRow.mk JVal.null JVal.null (JVal.str "unknown_sensor_x") "b" (JVal.str "two")] :=
  ⟨fun _ _ => rfl, rfl⟩

/-- Claim C9: an event dict missing any of `timestamp`, `node_id`,
`sensor` or `data` is not rejected (given the sensor value, when present,
is a hashable scalar): a missing `data` means `{}` and zero rows, a
missing `sensor` dispatches to the default transform, and missing
`timestamp`/`node_id`/`sensor` surface as `null` in every row. -/
theorem claim_C9 (plugins : Registry) (e : List (String × JVal))
    (hs : ((dictGet e "sensor").getD JVal.null).hashable = true) :
    (dictGet e "data" = none → parseEvent realRegistry e = some []) ∧
    (dictGet e "sensor" = none → parseEvent plugins e = parseEventWith DefaultPlugin.parse e) ∧
    (dictGet e "data" = none → (parseEvent plugins e).isSome = true) ∧
    (∀ rows r, parseEvent plugins e = some rows → r ∈ rows →
      (dictGet e "timestamp" = none → r.timestamp = JVal.null) ∧
      (dictGet e "node_id" = none → r.node_id = JVal.null) ∧
      (dictGet e "sensor" = none → r.sensor = JVal.null)) := by
  refine ⟨?_, ?_, ?_, ?_⟩
  · intro hd
    unfold parseEvent
    rw [if_pos hs]
    unfold parseEventWith
    rw [hd]
    show some (eventRows
        (pluginsGet realRegistry ((dictGet e "sensor").getD JVal.null)) e []) = some []
    unfold eventRows
    rw [pluginsGet_realRegistry_empty]
    rfl
  · intro hsen
    unfold parseEvent
    rw [hsen]
    rfl
  · intro hd
    unfold parseEvent
    rw [if_pos hs]
    unfold parseEventWith
    rw [hd]
    rfl
  · intro rows r hr hm
    obtain ⟨h1, h2, h3⟩ := parseEvent_fields plugins e rows r hr hm
    refine ⟨fun hk => ?_, fun hk => ?_, fun hk => ?_⟩
    · rw [h1, hk]
      rfl
    · rw [h2, hk]
      rfl
    · rw [h3, hk]
      rfl

/-- Witness for C9 on the empty event dict (every key absent). -/
theorem claim_C9_witness :
    ((dictGet ([] : List (String × JVal)) "sensor").getD JVal.null).hashable = true ∧
    parseEvent realRegistry ([] : List (String × JVal)) = some [] ∧
    (parseEvent realRegistry ([] : List (String × JVal))).isSome = true :=
  ⟨rfl, (claim_C9 realRegistry [] rfl).1 rfl, (claim_C9 realRegistry [] rfl).2.2.1 rfl⟩

/-! ### Claims about plugin discovery -/

/-- The mapping a run of `load_plugins` registers when every import it
attempts succeeds: the considered (non-underscore `.py`) units that expose
`parse`, keyed by module name, in listing order. -/
def okPlugins : List (String × ModuleLoad) → Registry
  | [] => []
  | (filename, m) :: rest =>
    if skippedFile filename then
      okPlugins rest
    else
      match m with
      | ModuleLoad.loaded (some t) => (moduleName filename, t) :: okPlugins rest
      | _ => okPlugins rest

/-- No considered (non-skipped) unit of the listing fails to import. -/
def noConsideredFailure (dir : List (String × ModuleLoad)) : Bool :=
  dir.all fun fm => skippedFile fm.1 || !fm.2.isFailure

/-- Unfolding equation for `load_plugins` on a cons cell. -/
theorem load_plugins_cons (f : String) (m : ModuleLoad) (rest : List (String × ModuleLoad)) :
    load_plugins ((f, m) :: rest) =
      if skippedFile f then load_plugins rest
      else
        match m with
        | ModuleLoad.failure => Except.error ()
        | ModuleLoad.loaded none => load_plugins rest
        | ModuleLoad.loaded (some t) =>
          (match load_plugins rest with
           | Except.ok ps => Except.ok ((moduleName f, t) :: ps)
           | Except.error e => Except.error e) := rfl

/-- Unfolding equation for `okPlugins` on a cons cell. -/
theorem okPlugins_cons (f : String) (m : ModuleLoad) (rest : List (String × ModuleLoad)) :
    okPlugins ((f, m) :: rest) =
      if skippedFile f then okPlugins rest
      else
        match m with
        | ModuleLoad.loaded (some t) => (moduleName f, t) :: okPlugins rest
        | _ => okPlugins rest := rfl

/-- A listing with an import failure on a considered unit: the failure
propagates out of `load_plugins` and aborts discovery of the remaining
units (`camera.py` is never registered). -/
def brokenDir : List (String × ModuleLoad) :=
  [("broken.py", ModuleLoad.failure), ("camera.py", ModuleLoad.loaded (some Camera.parse))]

/-- Counterexample to C2 as stated: on a listing whose first considered
unit is a malformed module (its import raises), `load_plugins` does not
skip the unit and continue — the exception propagates to the caller and
no mapping at all is returned. -/
theorem claim_C2_counterexample :
    load_plugins brokenDir = Except.error () := rfl

/-- Claim C2 (amended): a discovered unit that merely lacks the `parse`
callable is excluded from the mapping and discovery continues with the
remaining units; but a unit whose module fails to import is not tolerated
— since no `try` guards `import_module`, that failure propagates to the
caller.  Whenever no considered unit fails to import, `load_plugins`
returns exactly the mapping of considered units exposing `parse`. -/
theorem claim_C2_amended (dir : List (String × ModuleLoad))
    (h : noConsideredFailure dir = true) :
    load_plugins dir = Except.ok (okPlugins dir) := by
  induction dir with
  | nil => rfl
  | cons fm rest ih =>
    obtain ⟨f, m⟩ := fm
    rw [noConsideredFailure, List.all_cons, Bool.and_eq_true] at h
    obtain ⟨h1, h2⟩ := h
    have h2' : noConsideredFailure rest = true := h2
    have ih2 : load_plugins rest = Except.ok (okPlugins rest) := ih h2'
    rw [load_plugins_cons, okPlugins_cons]
    by_cases hs : skippedFile f = true
    · rw [if_pos hs, if_pos hs, ih2]
    · rw [if_neg hs, if_neg hs]
      cases m with
      | failure =>
        exfalso
        rw [Bool.or_eq_true] at h1
        rcases h1 with h1 | h1
        · exact hs h1
        · rw [ModuleLoad.isFailure] at h1
          simp at h1
      | loaded p =>
        cases p with
        | none => exact ih2
        | some t =>
          rw [ih2]

/-- A mixed listing: a unit without `parse`, a skipped underscore unit
(even a failing one is never imported), a non-`.py` entry, and a healthy
plugin. -/
def mixedDir : List (String × ModuleLoad) :=
  [("noparse.py", ModuleLoad.loaded none),
   ("_broken.py", ModuleLoad.failure),
   ("README.md", ModuleLoad.failure),
   ("camera.py", ModuleLoad.loaded (some Camera.parse))]

/-- Witness for the amended C2 on `mixedDir`: the unit lacking `parse` is
excluded, discovery continues, and only `camera` is registered. -/
theorem claim_C2_witness :
    noConsideredFailure mixedDir = true ∧
    load_plugins mixedDir = Except.ok (okPlugins mixedDir) :=
  ⟨by decide, claim_C2_amended mixedDir (by decide)⟩

/-- Counterexample to C3 as stated: discovery on the repository's own
plugin directory registers the fallback unit under its own name —
`"default_plugin"` is among the keys of the returned mapping (nothing in
`load_plugins` reserves the fallback unit; only underscore-prefixed files
are excluded). -/
theorem claim_C3_counterexample :
    load_plugins telemetryPluginsDir = Except.ok realRegistry ∧
    "default_plugin" ∈ realRegistry.map Prod.fst :=
  ⟨rfl, List.mem_cons_of_mem _ (List.mem_cons_self _ _)⟩

/-- Claim C3 (amended): the fallback unit is not excluded from sensor
dispatch — `load_plugins` on the repository's plugin directory returns
exactly the keys `camera` and `default_plugin`, and a sensor named
`"default_plugin"` is dispatched to the fallback transform through the
registry itself (the pipeline additionally reaches the default transform
through a direct import, independent of the registry). -/
theorem claim_C3_amended :
    load_plugins telemetryPluginsDir = Except.ok realRegistry ∧
    realRegistry.map Prod.fst = ["camera", "default_plugin"] ∧
    pluginsGet realRegistry (JVal.str "default_plugin") = DefaultPlugin.parse :=
  ⟨rfl, rfl, rfl⟩
